import Mathlib

/-!
Verification of the media synchronization engine of the ai-quantum-showcase
repository. The definitions below are shallow embeddings of the JavaScript
source under src/src/js: the playback coordination between the narration
source (AudioManager in quantum-realm.js) and the demo source
(ElevenLabsDemo in neural-docs.js), the scroll synchronization handler, the
FPS-driven quality adjustment (performance-optimizer.js), the teardown
routines and the speech-generation input guard.

The scheduling model is the single-threaded event loop of the host
platform: code runs in turns, each turn being one run-to-completion slice
between suspension points. The playback model below therefore includes the
turns created by the suspension points of the source: the catch handler of
AudioManager.togglePlayback that schedules a 100 ms replay of the
narration when play() rejects, and the readiness wait inside
ElevenLabsDemo.togglePlayback that suspends between the main-audio pause
and the demo play() call.
-/

/-! ## Playback coordination model (quantum-realm.js AudioManager,
neural-docs.js ElevenLabsDemo)

The observable playback state consists of the two flags the two sources
report, AudioManager.isPlaying (set and cleared by the play and pause
events of the narration element) and ElevenLabsDemo.isPlaying() (true when
the generated audio element exists and is not paused), together with two
pieces of pending control state: whether the catch handler of
AudioManager.togglePlayback has scheduled its 100 ms narration replay, and
whether a demo toggle is suspended in its readiness wait between pausing
the main audio and calling play() on the demo element. -/

structure EngineState where
  mainPlaying : Bool
  demoPlaying : Bool
  retryPending : Bool
  demoAwait : Bool
deriving DecidableEq, Repr

/-- Elementary audio actions performed by the handlers: pausing or starting
the narration element, pausing, starting or stopping the demo element. -/
inductive MicroEvent where
  | pauseMain
  | playMain
  | pauseDemo
  | playDemo
  | stopDemo
deriving DecidableEq, Repr

def applyMicro (s : EngineState) : MicroEvent → EngineState
  | .pauseMain => { s with mainPlaying := false }
  | .playMain  => { s with mainPlaying := true }
  | .pauseDemo => { s with demoPlaying := false }
  | .playDemo  => { s with demoPlaying := true }
  | .stopDemo  => { s with demoPlaying := false }

/-- One run-to-completion turn of the event loop touching the audio
sources:

mainToggleOk is AudioManager.togglePlayback with its play() call
fulfilled; mainToggleRejected is the same handler when play() rejects, in
which case its catch block schedules the 100 ms replay; retryFire is that
scheduled callback, which resumes the context and replays the narration
element with no re-check of the demo source and no isPlaying check.

mainPause and mainStop are AudioManager.pause() and stop().

demoToggleStart is ElevenLabsDemo.togglePlayback up to its suspension
point: with the demo element paused it pauses the main audio when
window.audioManager reports playing and then awaits readiness; with the
demo element playing it just pauses it. demoToggleFinish is the resumption
after the wait, which calls play() on the demo element. demoStop is
ElevenLabsDemo.stop(). -/
inductive Turn where
  | mainToggleOk
  | mainToggleRejected
  | retryFire
  | mainPause
  | mainStop
  | demoToggleStart
  | demoToggleFinish
  | demoStop
deriving DecidableEq, Repr

/-- The elementary audio actions a turn performs, in source order. -/
def expandTurn (t : Turn) (s : EngineState) : List MicroEvent :=
  match t with
  | .mainToggleOk =>
      if s.mainPlaying then [.pauseMain]
      else if s.demoPlaying then [.stopDemo, .playMain] else [.playMain]
  | .mainToggleRejected =>
      if s.mainPlaying then [.pauseMain]
      else if s.demoPlaying then [.stopDemo] else []
  | .retryFire => if s.retryPending then [.playMain] else []
  | .mainPause => if s.mainPlaying then [.pauseMain] else []
  | .mainStop => [.pauseMain]
  | .demoToggleStart =>
      if s.demoAwait then []
      else if s.demoPlaying then [.pauseDemo]
      else if s.mainPlaying then [.pauseMain] else []
  | .demoToggleFinish => if s.demoAwait then [.playDemo] else []
  | .demoStop => [.stopDemo]

/-- The pending-control flags (retryPending, demoAwait) after a turn. -/
def turnFlags (t : Turn) (s : EngineState) : Bool × Bool :=
  match t with
  | .mainToggleRejected =>
      if s.mainPlaying then (s.retryPending, s.demoAwait)
      else (true, s.demoAwait)
  | .retryFire => (false, s.demoAwait)
  | .demoToggleStart =>
      if s.demoAwait || s.demoPlaying then (s.retryPending, s.demoAwait)
      else (s.retryPending, true)
  | .demoToggleFinish => (s.retryPending, false)
  | _ => (s.retryPending, s.demoAwait)

def stepTurn (s : EngineState) (t : Turn) : EngineState :=
  let s' := (expandTurn t s).foldl applyMicro s
  { s' with retryPending := (turnFlags t s).fst,
            demoAwait := (turnFlags t s).snd }

/-- All intermediate states reached while a list of elementary actions is
applied one by one. -/
def scanStates (s : EngineState) : List MicroEvent → List EngineState
  | [] => []
  | e :: es =>
      let s' := applyMicro s e
      s' :: scanStates s' es

/-- Every state passed through inside one turn, ending with the state the
turn leaves behind. -/
def turnStates (s : EngineState) (t : Turn) : List EngineState :=
  scanStates s (expandTurn t s) ++ [stepTurn s t]

def runTurns (s : EngineState) : List Turn → EngineState
  | [] => s
  | t :: ts => runTurns (stepTurn s t) ts

/-- Every state passed through while a sequence of turns executes. -/
def turnsTrace (s : EngineState) : List Turn → List EngineState
  | [] => []
  | t :: ts => turnStates s t ++ turnsTrace (stepTurn s t) ts

def bothPlaying (s : EngineState) : Bool :=
  s.mainPlaying && s.demoPlaying

/-- Initial state: neither source playing, nothing pending. -/
def initEngine : EngineState := ⟨false, false, false, false⟩

/-- Requests a user or a collaborator can issue: the narration play-pause
toggle (AudioManager.togglePlayback, also reached through play()), the
narration pause() and stop() methods, the demo play-pause toggle
(ElevenLabsDemo.togglePlayback) and the demo stop() method. -/
inductive Request where
  | mainToggle
  | mainPause
  | mainStop
  | demoToggle
  | demoStop
deriving DecidableEq, Repr

/-- The turns a request expands to when its handler runs to completion
with every play() call fulfilled: the main toggle is one fulfilled turn
and the demo toggle is its start turn immediately followed by its
resumption, with no other handler interleaved and no retry scheduled. -/
def reqTurns : Request → List Turn
  | .mainToggle => [.mainToggleOk]
  | .mainPause => [.mainPause]
  | .mainStop => [.mainStop]
  | .demoToggle => [.demoToggleStart, .demoToggleFinish]
  | .demoStop => [.demoStop]

/-- A request sequence executed serially, each handler completing without
rejection before the next request runs. -/
def serializeRequests (rs : List Request) : List Turn :=
  rs.foldr (fun r acc => reqTurns r ++ acc) []

/-- The turn sequence of the rejection race: the demo starts playing, the
user toggles the narration and its play() rejects (the demo has already
been stopped, the 100 ms replay is scheduled), the user restarts the demo
inside the 100 ms window, and then the scheduled replay fires. -/
def retryRaceTurns : List Turn :=
  [.demoToggleStart, .demoToggleFinish, .mainToggleRejected,
   .demoToggleStart, .demoToggleFinish, .retryFire]

/-- The same race stopped just before the scheduled replay fires. -/
def retryRacePrefix : List Turn :=
  [.demoToggleStart, .demoToggleFinish, .mainToggleRejected,
   .demoToggleStart, .demoToggleFinish]

lemma turnsTrace_append (a b : List Turn) :
    ∀ s : EngineState,
      turnsTrace s (a ++ b) = turnsTrace s a ++ turnsTrace (runTurns s a) b := by
  induction a with
  | nil => intro s; rfl
  | cons t ts ih =>
    intro s
    simp [turnsTrace, runTurns, ih (stepTurn s t), List.append_assoc]

lemma serialized_request_preserves (s : EngineState) (r : Request)
    (hs : (!bothPlaying s && !s.retryPending && !s.demoAwait) = true) :
    ((turnsTrace s (reqTurns r)).all fun u => !bothPlaying u) = true ∧
    (!bothPlaying (runTurns s (reqTurns r)) &&
      !(runTurns s (reqTurns r)).retryPending &&
      !(runTurns s (reqTurns r)).demoAwait) = true := by
  rcases s with ⟨m, d, p, w⟩
  revert hs
  cases m <;> cases d <;> cases p <;> cases w <;> cases r <;> decide

lemma serialized_trace_all (rs : List Request) :
    ∀ s : EngineState,
      (!bothPlaying s && !s.retryPending && !s.demoAwait) = true →
      ((turnsTrace s (serializeRequests rs)).all fun u => !bothPlaying u)
        = true := by
  induction rs with
  | nil => intro s _; rfl
  | cons r rs ih =>
    intro s hs
    have h := serialized_request_preserves s r hs
    have e : serializeRequests (r :: rs) =
        reqTurns r ++ serializeRequests rs := rfl
    rw [e, turnsTrace_append (reqTurns r) (serializeRequests rs) s,
      List.all_append, h.1, ih _ h.2]
    rfl

/-- C1 counterexample: through the catch path of togglePlayback the
scheduled 100 ms replay restarts the narration without re-checking the
demo source, so along the concrete rejection-race turn sequence the engine
reaches a state where both sources report Playing; the original
all-sequences exclusion claim is therefore false on the code. -/
theorem playback_mutual_exclusion_counterexample :
    bothPlaying (runTurns initEngine retryRaceTurns) = true ∧
    ((initEngine :: turnsTrace initEngine retryRaceTurns).all
      fun u => !bothPlaying u) = false ∧
    ¬ (∀ ts : List Turn,
        ((initEngine :: turnsTrace initEngine ts).all
          fun u => !bothPlaying u) = true) := by
  refine ⟨by decide, by decide, fun h => ?_⟩
  have h2 := h retryRaceTurns
  rw [show ((initEngine :: turnsTrace initEngine retryRaceTurns).all
      fun u => !bothPlaying u) = false from by decide] at h2
  exact Bool.noConfusion h2

/-- C1 amended, mutual exclusion in the serialized no-rejection regime:
along any sequence of play, pause and stop requests in which every play()
call is fulfilled (the catch/setTimeout replay of togglePlayback is never
taken) and each handler runs to completion before the next request starts,
no state reached at any point, including the intermediate states inside a
single handler, has both sources reporting Playing. -/
theorem playback_mutual_exclusion_amended (rs : List Request) :
    ((initEngine :: turnsTrace initEngine (serializeRequests rs)).all
      fun u => !bothPlaying u) = true := by
  have h := serialized_trace_all rs initEngine (by decide)
  simp only [List.all_cons, h]
  rfl

/-- C2 counterexample: at the reachable state left by the rejection-race
prefix the demo is playing and the scheduled replay turn issues the play
action on the narration with no pause or stop of the demo, so the
narration enters Playing while the demo is still Playing, refuting the
claimed handoff ordering on the code. -/
theorem playback_handoff_counterexample :
    (runTurns initEngine retryRacePrefix).demoPlaying = true ∧
    (runTurns initEngine retryRacePrefix).mainPlaying = false ∧
    expandTurn Turn.retryFire (runTurns initEngine retryRacePrefix) =
      [MicroEvent.playMain] ∧
    (stepTurn (runTurns initEngine retryRacePrefix)
      Turn.retryFire).mainPlaying = true ∧
    (stepTurn (runTurns initEngine retryRacePrefix)
      Turn.retryFire).demoPlaying = true := by
  decide

/-- C2 amended, handoff ordering in the serialized no-rejection regime: a
play request for one source while the other is playing first issues the
pause or stop action on the playing source, whose Playing flag is cleared
before the play action on the requested source is issued, and no
intermediate state of the handoff has both sources playing; outside that
regime the scheduled replay of a rejected narration play() starts the
narration without pausing the demo. -/
theorem playback_handoff_ordering_amended (s : EngineState)
    (hr : s.retryPending = false) (hw : s.demoAwait = false) :
    (s.mainPlaying = true → s.demoPlaying = false →
      expandTurn Turn.demoToggleStart s = [MicroEvent.pauseMain] ∧
      (stepTurn s Turn.demoToggleStart).mainPlaying = false ∧
      expandTurn Turn.demoToggleFinish (stepTurn s Turn.demoToggleStart) =
        [MicroEvent.playDemo] ∧
      ((turnsTrace s [Turn.demoToggleStart, Turn.demoToggleFinish]).all
        fun u => !bothPlaying u) = true) ∧
    (s.demoPlaying = true → s.mainPlaying = false →
      expandTurn Turn.mainToggleOk s =
        [MicroEvent.stopDemo, MicroEvent.playMain] ∧
      (applyMicro s MicroEvent.stopDemo).demoPlaying = false ∧
      ((turnsTrace s [Turn.mainToggleOk]).all
        fun u => !bothPlaying u) = true) := by
  rcases s with ⟨m, d, p, w⟩
  revert hr hw
  cases m <;> cases d <;> cases p <;> cases w <;> decide

/-- Witness for the amended handoff ordering at the concrete state in
which the narration is playing, nothing is pending and the demo is
requested. -/
theorem playback_handoff_ordering_amended_witness :
    expandTurn Turn.demoToggleStart ⟨true, false, false, false⟩ =
      [MicroEvent.pauseMain] ∧
    (stepTurn ⟨true, false, false, false⟩
      Turn.demoToggleStart).mainPlaying = false :=
  ⟨(((playback_handoff_ordering_amended ⟨true, false, false, false⟩
      rfl rfl).1) rfl rfl).1,
   (((playback_handoff_ordering_amended ⟨true, false, false, false⟩
      rfl rfl).1) rfl rfl).2.1⟩

/-! ## Scroll synchronization (quantum-realm.js AudioManager)

State visible to the scroll handler installed by setupScrollSync, to
seekTo, to the timeupdate listener, and to the scroll-sync toggle methods.
Times are rationals: positions in seconds as stored on the media element,
durations in seconds, with this.duration and this.currentTime kept in
milliseconds as in the source. -/

structure AudioMgrSync where
  isPlaying : Bool
  scrollSyncEnabled : Bool
  isScrolling : Bool
  currentTimeMs : ℚ
  elementPosSec : ℚ
  durationSec : ℚ
deriving DecidableEq, Repr

/-- AudioManager.seekTo: the element position becomes
Math.max(0, Math.min(timeInMs / 1000, element.duration)). -/
def seekTo (s : AudioMgrSync) (timeInMs : ℚ) : AudioMgrSync :=
  { s with elementPosSec := max 0 (min (timeInMs / 1000) s.durationSec) }

/-- The scroll listener installed by AudioManager.setupScrollSync. It
returns the updated state together with the list of seek targets (in
milliseconds, the argument passed to seekTo) it issued. The handler
returns early when the narration is playing, when the 100 ms debounce flag
is set, or when scroll sync is disabled; otherwise it sets the debounce
flag, computes targetTime as scrollPercent times this.duration and seeks
there once. -/
def scrollHandlerStep (s : AudioMgrSync) (scrollPercent : ℚ) :
    AudioMgrSync × List ℚ :=
  if s.isPlaying || s.isScrolling || !s.scrollSyncEnabled then (s, [])
  else
    let targetTime := scrollPercent * (1000 * s.durationSec)
    (seekTo { s with isScrolling := true } targetTime, [targetTime])

/-- The 100 ms timeout scheduled by the scroll handler clears the debounce
flag. -/
def scrollDebounceTimeout (s : AudioMgrSync) : AudioMgrSync :=
  { s with isScrolling := false }

/-- The timeupdate listener installed by setupEventListeners: it mirrors
the element position into this.currentTime (in milliseconds) and updates
the progress bar and the visualizations; it issues no seek. -/
def timeupdateStep (s : AudioMgrSync) : AudioMgrSync × List ℚ :=
  ({ s with currentTimeMs := s.elementPosSec * 1000 }, [])

/-- AudioManager.disableScrollSync. -/
def disableScrollSync (s : AudioMgrSync) : AudioMgrSync :=
  { s with scrollSyncEnabled := false }

/-- AudioManager.enableScrollSync. -/
def enableScrollSync (s : AudioMgrSync) : AudioMgrSync :=
  { s with scrollSyncEnabled := true }

/-- Processing of a sequence of scroll events, accumulating every seek
target issued by the handler. -/
def processScrolls (s : AudioMgrSync) : List ℚ → AudioMgrSync × List ℚ
  | [] => (s, [])
  | p :: ps =>
      let r := scrollHandlerStep s p
      let rest := processScrolls r.fst ps
      (rest.fst, r.snd ++ rest.snd)

lemma scrollHandlerStep_disabled (s : AudioMgrSync) (p : ℚ)
    (h : s.scrollSyncEnabled = false) : scrollHandlerStep s p = (s, []) := by
  simp [scrollHandlerStep, h]

/-- A state used as a concrete counterexample: the narration is playing,
scroll sync is enabled, the debounce flag is clear, the narration lasts
120 seconds and sits at position 12 s. -/
def scrollExampleState : AudioMgrSync :=
  { isPlaying := true, scrollSyncEnabled := true, isScrolling := false,
    currentTimeMs := 12000, elementPosSec := 12, durationSec := 120 }

/-- C3 counterexample: with scroll sync enabled but the narration playing,
the scroll handler issues no seek at all, so the claim that every scroll
event processed while scroll sync is enabled seeks exactly once to
scrollPercent times the narration duration is false on the code. -/
theorem scroll_seek_counterexample :
    scrollExampleState.scrollSyncEnabled = true ∧
    (scrollHandlerStep scrollExampleState (1 / 2)).snd = [] ∧
    ¬ (∀ (s : AudioMgrSync) (p : ℚ), s.scrollSyncEnabled = true →
        (scrollHandlerStep s p).snd = [p * (1000 * s.durationSec)]) := by
  refine ⟨rfl, by simp [scrollHandlerStep, scrollExampleState], ?_⟩
  intro h
  have h2 := h scrollExampleState (1 / 2) rfl
  simp [scrollHandlerStep, scrollExampleState] at h2

/-- C3 amended: for every scroll event processed while scroll sync is
enabled, the narration is not playing, and the 100 ms debounce flag is
clear, the handler seeks exactly once, with target scrollPercent times the
narration duration in milliseconds, the element position becomes that
target clamped by seekTo, and the resulting playback-position update (the
timeupdate listener) never issues a seek. -/
theorem scroll_seek_amended (s : AudioMgrSync) (p : ℚ)
    (h1 : s.isPlaying = false) (h2 : s.isScrolling = false)
    (h3 : s.scrollSyncEnabled = true) :
    (scrollHandlerStep s p).snd = [p * (1000 * s.durationSec)] ∧
    (scrollHandlerStep s p).fst.elementPosSec =
      max 0 (min (p * (1000 * s.durationSec) / 1000) s.durationSec) ∧
    (∀ t : AudioMgrSync, (timeupdateStep t).snd = []) := by
  refine ⟨?_, ?_, fun t => rfl⟩ <;> simp [scrollHandlerStep, h1, h2, h3, seekTo]

/-- Witness for the amended scroll claim: at scroll percent one half with a
120 s narration, paused, debounce clear and sync enabled, the handler
issues the single seek target 60000 ms. -/
theorem scroll_seek_amended_witness :
    (scrollHandlerStep { scrollExampleState with isPlaying := false }
      (1 / 2)).snd = [(60000 : ℚ)] := by
  have h := scroll_seek_amended
    { scrollExampleState with isPlaying := false } (1 / 2) rfl rfl rfl
  rw [h.1]
  norm_num [scrollExampleState]

/-- C5 Scroll-sync toggle frame property: after disableScrollSync, any
sequence of scroll events leaves the whole state unchanged and issues no
seek, so the narration position is untouched and the flag stays false
until enableScrollSync is invoked. -/
theorem scroll_sync_disabled_frame (s : AudioMgrSync) (ps : List ℚ) :
    processScrolls (disableScrollSync s) ps = (disableScrollSync s, []) ∧
    (processScrolls (disableScrollSync s) ps).fst.elementPosSec =
      s.elementPosSec ∧
    (processScrolls (disableScrollSync s) ps).fst.scrollSyncEnabled = false := by
  have key : ∀ ps' : List ℚ, ∀ t : AudioMgrSync, t.scrollSyncEnabled = false →
      processScrolls t ps' = (t, []) := by
    intro ps'
    induction ps' with
    | nil => intro t _; rfl
    | cons p ps' ih =>
      intro t ht
      simp [processScrolls, scrollHandlerStep_disabled t p ht, ih t ht]
  have h := key ps (disableScrollSync s) rfl
  exact ⟨h, by rw [h]; rfl, by rw [h]; rfl⟩

/-- C7 Seek clamping: for a loaded narration with nonnegative duration,
seekTo lands the playback position (in milliseconds) exactly on the
argument clamped to the interval from 0 to the duration; a negative
argument yields position 0 and an argument past the end yields the
duration. -/
theorem seek_clamping (s : AudioMgrSync) (ms : ℚ)
    (hd : 0 ≤ s.durationSec) :
    1000 * (seekTo s ms).elementPosSec =
      max 0 (min ms (1000 * s.durationSec)) ∧
    (ms ≤ 0 → (seekTo s ms).elementPosSec = 0) ∧
    (1000 * s.durationSec ≤ ms → (seekTo s ms).elementPosSec = s.durationSec) := by
  have h1000 : (0 : ℚ) < 1000 := by norm_num
  refine ⟨?_, ?_, ?_⟩
  · simp only [seekTo]
    rcases le_total ms (1000 * s.durationSec) with h | h
    · have hdiv : ms / 1000 ≤ s.durationSec := by
        rw [div_le_iff₀ h1000]; linarith
      rw [min_eq_left hdiv, min_eq_left h]
      rcases le_total ms 0 with h0 | h0
      · have : ms / 1000 ≤ 0 := div_nonpos_of_nonpos_of_nonneg h0 (le_of_lt h1000)
        rw [max_eq_left this, max_eq_left h0, mul_zero]
      · have : 0 ≤ ms / 1000 := div_nonneg h0 (le_of_lt h1000)
        rw [max_eq_right this, max_eq_right h0]
        field_simp
    · have hdiv : s.durationSec ≤ ms / 1000 := by
        rw [le_div_iff₀ h1000]; linarith
      rw [min_eq_right hdiv, min_eq_right h]
      have hpos : 0 ≤ 1000 * s.durationSec := by positivity
      rw [max_eq_right hd, max_eq_right hpos]
  · intro h0
    have : ms / 1000 ≤ 0 := div_nonpos_of_nonpos_of_nonneg h0 (le_of_lt h1000)
    simp only [seekTo]
    rw [min_eq_left (le_trans this hd), max_eq_left this]
  · intro h
    have hdiv : s.durationSec ≤ ms / 1000 := by
      rw [le_div_iff₀ h1000]; linarith
    simp only [seekTo]
    rw [min_eq_right hdiv, max_eq_right hd]

/-- Witness for seek clamping: on a 90 s narration, seeking to -5 ms lands
at position 0 and seeking to 120000 ms lands at the 90 s end. -/
theorem seek_clamping_witness :
    (seekTo { scrollExampleState with durationSec := 90 } (-5)).elementPosSec
      = 0 ∧
    (seekTo { scrollExampleState with durationSec := 90 }
      120000).elementPosSec = 90 := by
  constructor
  · exact (seek_clamping { scrollExampleState with durationSec := 90 } (-5)
      (by norm_num)).2.1 (by norm_num)
  · exact (seek_clamping { scrollExampleState with durationSec := 90 } 120000
      (by norm_num)).2.2 (by norm_num)

/-! ## Demo visibility policy (neural-docs.js ElevenLabsDemo.checkDemoVisibility) -/

/-- Outcome of one run of checkDemoVisibility: whether the demo audio is
stopped, the delay in milliseconds of the scheduled main-audio restore if
one is scheduled, and the value assigned to shouldRestoreMainAudio if the
handler assigns it. -/
structure VisCheckOutcome where
  stopsDemo : Bool
  mainResumeDelayMs : Option ℕ
  shouldRestoreMainAudio : Option Bool
deriving DecidableEq, Repr

/-- ElevenLabsDemo.checkDemoVisibility, as a function of the demo playing
flag, the computed visibility of the demo section and the demo element
position in seconds. When the demo plays and the section is out of view,
the demo is stopped and a 500 ms restore of the main audio is scheduled,
but only when the position exceeds 5 seconds; when the section is visible
and the demo plays, shouldRestoreMainAudio is cleared. -/
def checkDemoVisibility (demoPlaying demoVisible : Bool)
    (currentTimeSec : ℚ) : VisCheckOutcome :=
  if demoPlaying && !demoVisible then
    if 5 < currentTimeSec then
      { stopsDemo := true, mainResumeDelayMs := some 500,
        shouldRestoreMainAudio := some true }
    else
      { stopsDemo := false, mainResumeDelayMs := none,
        shouldRestoreMainAudio := none }
  else if demoVisible && demoPlaying then
    { stopsDemo := false, mainResumeDelayMs := none,
      shouldRestoreMainAudio := some false }
  else
    { stopsDemo := false, mainResumeDelayMs := none,
      shouldRestoreMainAudio := none }

/-- C4 Scroll-away elapsed-time floor: on a scroll event observed while the
demo is playing and the demo section is fully out of view, the demo is
stopped and a 500 ms delayed restore of the narration is scheduled exactly
when the elapsed demo playback time exceeds the 5 second floor. -/
theorem demo_scrollaway_floor (demoPlaying demoVisible : Bool)
    (t : ℚ) (hp : demoPlaying = true) (hv : demoVisible = false) :
    ((checkDemoVisibility demoPlaying demoVisible t).stopsDemo = true ∧
     (checkDemoVisibility demoPlaying demoVisible t).mainResumeDelayMs =
       some 500) ↔ 5 < t := by
  subst hp hv
  by_cases h : (5 : ℚ) < t <;> simp [checkDemoVisibility, h]

/-- Witness for the scroll-away floor: at 8 s of demo playback the handoff
occurs and at 2 s it does not. -/
theorem demo_scrollaway_floor_witness :
    (checkDemoVisibility true false 8).stopsDemo = true ∧
    (checkDemoVisibility true false 2).stopsDemo = false := by
  constructor
  · exact ((demo_scrollaway_floor true false 8 rfl rfl).mpr (by norm_num)).1
  · decide

/-! ## FPS-driven quality adjustment (performance-optimizer.js)

The monitor installed by startFPSMonitoring counts frames and, once per
second, stores the frame count as the measured FPS and adjusts the load:
below 30 it calls reduceBrowserLoad, above 55 increaseBrowserLoad. The
adjusted quantities are the renderer pixel ratio and the gsap ticker frame
rate, which moves in steps of 5 between the floor 20 and the cap 60. -/

structure PerfState where
  devicePixelRatio : ℚ
  pixelRatio : ℚ
  tickerFps : ℤ
deriving DecidableEq, Repr

/-- PerformanceOptimizer.reduceBrowserLoad: the renderer pixel ratio
becomes Math.min(devicePixelRatio * 0.5, 1) and the gsap ticker rate drops
one 5 fps step, floored at 20. -/
def reduceBrowserLoad (s : PerfState) : PerfState :=
  { s with pixelRatio := min (s.devicePixelRatio * (1 / 2)) 1,
           tickerFps := max (s.tickerFps - 5) 20 }

/-- PerformanceOptimizer.increaseBrowserLoad: the renderer pixel ratio
becomes Math.min(devicePixelRatio, 2) and the gsap ticker rate rises one
5 fps step, capped at 60. -/
def increaseBrowserLoad (s : PerfState) : PerfState :=
  { s with pixelRatio := min s.devicePixelRatio 2,
           tickerFps := min (s.tickerFps + 5) 60 }

/-- One once-per-second FPS sample as processed inside measureFPS. -/
def fpsAdjust (s : PerfState) (fps : ℕ) : PerfState :=
  if fps < 30 then reduceBrowserLoad s
  else if 55 < fps then increaseBrowserLoad s
  else s

/-- A run of consecutive once-per-second FPS samples. -/
def simulateSamples (s : PerfState) : List ℕ → PerfState
  | [] => s
  | f :: fs => simulateSamples (fpsAdjust s f) fs

/-- C6 counterexample: starting from the full-quality state (ticker at 60),
an FPS measured steadily at 20 for a 2 second window, that is two
once-per-second samples, lowers the ticker rate by two 5 fps steps to 50,
not by exactly one step to 55, so the claim that a steady sub-threshold
window lowers the quality by exactly one step is false on the code. -/
theorem quality_step_counterexample :
    (simulateSamples ⟨2, 2, 60⟩ [20, 20]).tickerFps = 50 ∧
    ((50 : ℤ) = 60 - 5 → False) ∧
    ¬ (∀ s : PerfState, (simulateSamples s [20, 20]).tickerFps =
        max (s.tickerFps - 5) 20) := by
  refine ⟨by decide, by decide, ?_⟩
  intro h
  have h2 := h ⟨2, 2, 60⟩
  rw [show (simulateSamples ⟨2, 2, 60⟩ [20, 20]).tickerFps = 50 from by decide]
    at h2
  simp at h2

/-- C6 amended: every once-per-second sample below the low threshold 30 is
applied immediately (no multi-sample hysteresis) and lowers the gsap
ticker rate by exactly one 5 fps step floored at 20, so a single
adjustment never jumps from the top rate 60 to the floor 20, and a steady
low window of 2 seconds, two samples, produces two single steps from 60
down to 50. -/
theorem quality_step_amended (s : PerfState) (fps : ℕ) (hlow : fps < 30) :
    (fpsAdjust s fps).tickerFps = max (s.tickerFps - 5) 20 ∧
    s.tickerFps - (fpsAdjust s fps).tickerFps ≤ 5 ∧
    (s.tickerFps = 60 → (fpsAdjust s fps).tickerFps = 55) ∧
    (simulateSamples { s with tickerFps := 60 } [fps, fps]).tickerFps = 50 := by
  have hred : fpsAdjust s fps = reduceBrowserLoad s := by
    simp [fpsAdjust, hlow]
  have hred' : ∀ t : PerfState, fpsAdjust t fps = reduceBrowserLoad t := by
    intro t; simp [fpsAdjust, hlow]
  refine ⟨by rw [hred]; rfl, ?_, ?_, ?_⟩
  · rw [hred]
    show s.tickerFps - max (s.tickerFps - 5) 20 ≤ 5
    rcases max_cases (s.tickerFps - 5) 20 with ⟨h1, _⟩ | ⟨h1, h2⟩ <;> omega
  · intro h60
    rw [hred]
    show max (s.tickerFps - 5) 20 = 55
    rw [h60]; decide
  · show (simulateSamples (fpsAdjust { s with tickerFps := 60 } fps) [fps]).tickerFps = 50
    rw [hred' { s with tickerFps := 60 }]
    show (fpsAdjust (reduceBrowserLoad { s with tickerFps := 60 }) fps).tickerFps = 50
    rw [hred']
    show max (max ((60 : ℤ) - 5) 20 - 5) 20 = 50
    decide

/-- Witness for the amended quality adjustment at the concrete full-quality
state and a measured FPS of 20. -/
theorem quality_step_amended_witness :
    (fpsAdjust ⟨2, 2, 60⟩ 20).tickerFps = max (60 - 5) 20 ∧
    (simulateSamples ⟨2, 2, 60⟩ [20, 20]).tickerFps = 50 :=
  ⟨(quality_step_amended ⟨2, 2, 60⟩ 20 (by decide)).1,
   (quality_step_amended ⟨2, 2, 60⟩ 20 (by decide)).2.2.2⟩

/-! ## Bounded waits on asynchronous audio loads

AudioManager.loadAudio awaits a promise that resolves on the loadedmetadata
event and rejects on the error event of the narration element, with no
timer. ElevenLabsDemo.displayResult awaits a promise that resolves on the
canplay event, rejects on the error event, and rejects through a 5000 ms
timeout. An environment is the optional arrival time, in milliseconds, of
each media event; the outcome is the resolution time and result, or none
when the promise never settles. -/

inductive LoadResult where
  | ready
  | failed
deriving DecidableEq, Repr

/-- Settlement of the promise awaited inside AudioManager.loadAudio, given
the arrival times of the loadedmetadata and error events: the earliest
event settles it and with no event it never settles. -/
def loadAudioOutcome : Option ℕ → Option ℕ → Option (ℕ × LoadResult)
  | none, none => none
  | some tm, none => some (tm, .ready)
  | none, some te => some (te, .failed)
  | some tm, some te =>
      if tm ≤ te then some (tm, .ready) else some (te, .failed)

/-- Settlement of the promise awaited inside ElevenLabsDemo.displayResult,
given the arrival times of the canplay and error events: the earliest of
the two events and the 5000 ms timeout settles it, the timeout rejecting. -/
def demoPrepareOutcome (canplayAt errorAt : Option ℕ) : ℕ × LoadResult :=
  match canplayAt, errorAt with
  | none, none => (5000, .failed)
  | some tm, none => if tm < 5000 then (tm, .ready) else (5000, .failed)
  | none, some te => if te < 5000 then (te, .failed) else (5000, .failed)
  | some tm, some te =>
      if tm ≤ te then
        if tm < 5000 then (tm, .ready) else (5000, .failed)
      else
        if te < 5000 then (te, .failed) else (5000, .failed)

/-- C8 counterexample: the narration load has no timeout, so in the
environment where neither media event ever fires it never settles; hence
the claim that every asynchronous audio load operation enforces a bounded
wait of a few seconds is false on the code. -/
theorem load_wait_counterexample :
    loadAudioOutcome none none = none ∧
    ¬ (∀ meta err : Option ℕ, ∃ t r,
        loadAudioOutcome meta err = some (t, r) ∧ t ≤ 5000) := by
  refine ⟨rfl, ?_⟩
  intro h
  obtain ⟨t, r, h1, -⟩ := h none none
  exact Option.noConfusion h1

/-- C8 amended: the demo audio preparation settles in every environment
within its 5000 ms timeout, rejecting when no event arrived in time, while
the narration load settles exactly when a loadedmetadata or error event
fires and otherwise waits indefinitely. -/
theorem load_wait_amended (meta err : Option ℕ) :
    (demoPrepareOutcome meta err).fst ≤ 5000 ∧
    (meta = none → err = none →
      demoPrepareOutcome meta err = (5000, LoadResult.failed)) ∧
    (loadAudioOutcome meta err = none ↔ meta = none ∧ err = none) := by
  rcases meta with _ | tm <;> rcases err with _ | te <;>
    simp [demoPrepareOutcome, loadAudioOutcome] <;>
    split_ifs <;> simp <;> omega

/-- Witness for the amended bounded-wait theorem in the environment with no
media event at all. -/
theorem load_wait_amended_witness :
    demoPrepareOutcome none none = (5000, LoadResult.failed) :=
  (load_wait_amended none none).2.1 rfl rfl

/-! ## Teardown routines (QuantumRealm.cleanup, AudioManager.destroy,
ElevenLabsDemo.destroy)

Each teardown routine is modelled as a function from the resource-holding
state to the new state paired with the list of resources it actually
releases on that call. The release sites of QuantumRealm.cleanup and
ElevenLabsDemo.destroy are guarded by presence checks (empty object lists,
a null renderer, an already cleared listener table or global reference, a
revocation that is a no-op the second time), so those two raise no error
on repeated calls. AudioManager.destroy is different: it never nulls
this.audioContext, its guard checks only that the reference exists, and
close() on an already closed context is rejected by the platform with an
InvalidStateError, so its model carries an error output. -/

structure QuantumRealmState where
  particles : List ℕ
  waves : List ℕ
  fields : List ℕ
  rendererRes : Option ℕ
  sceneRef : Option ℕ
  cameraRef : Option ℕ
deriving DecidableEq, Repr

/-- QuantumRealm.cleanup: disposes the geometry and material of every
object in particles, waves and fields, empties the three lists, disposes
the renderer and nulls it, and nulls the scene and camera. The second
component lists the resources disposed by this call. -/
def quantumCleanup (s : QuantumRealmState) : QuantumRealmState × List ℕ :=
  (⟨[], [], [], none, none, none⟩,
   s.particles ++ s.waves ++ s.fields ++ s.rendererRes.toList)

/-- Resources released by AudioManager.destroy. -/
inductive AudioRes where
  | mediaSource
  | outputContext
  | controlsDom
deriving DecidableEq, Repr

structure AudioMgrRes where
  elementSrc : Option String
  elementPlaying : Bool
  contextOpen : Option Bool
  controlsPresent : Bool
deriving DecidableEq, Repr

/-- Errors surfaced by a teardown call: AudioManager.destroy never nulls
this.audioContext, and the platform rejects close() on an already closed
context with an InvalidStateError; destroy does not observe the returned
promise, so the rejection is unhandled. -/
inductive DestroyError where
  | invalidStateClose
deriving DecidableEq, Repr

/-- AudioManager.destroy: pauses the element and empties its src when an
element exists, calls close() on the audio context when the reference
exists, and removes the controls node when present. The guard on the
close() call checks only that the reference exists, never whether the
context is still open, so when the context is already closed the call
releases nothing and yields the unhandled InvalidStateError rejection
returned as the third component. -/
def audioManagerDestroy (s : AudioMgrRes) :
    AudioMgrRes × List AudioRes × List DestroyError :=
  ({ elementSrc := s.elementSrc.map fun _ => "",
     elementPlaying := false,
     contextOpen := s.contextOpen.map fun _ => false,
     controlsPresent := false },
   (match s.elementSrc with
    | some src => if src = "" then [] else [.mediaSource]
    | none => []) ++
   (if s.contextOpen = some true then [.outputContext] else []) ++
   (if s.controlsPresent then [.controlsDom] else []),
   if s.contextOpen = some false then [.invalidStateClose] else [])

/-- Resources released by ElevenLabsDemo.destroy. -/
inductive DemoRes where
  | blobUrl
  | eventListeners
  | globalRef
deriving DecidableEq, Repr

structure DemoResState where
  currentAudioUrl : Option String
  urlRevoked : Bool
  listenersAttached : Bool
  globalRegistered : Bool
deriving DecidableEq, Repr

/-- ElevenLabsDemo.destroy: revokes the generated blob URL when a
currentAudio exists (revoking an already revoked URL releases nothing),
detaches the audio event listeners when the listener table is set, and
clears the window.demoAudioManager reference when it points at this
instance. -/
def elevenLabsDestroy (s : DemoResState) : DemoResState × List DemoRes :=
  ({ s with urlRevoked := s.urlRevoked || s.currentAudioUrl.isSome,
            listenersAttached := false,
            globalRegistered := false },
   (if s.currentAudioUrl.isSome && !s.urlRevoked then [.blobUrl] else []) ++
   (if s.listenersAttached then [.eventListeners] else []) ++
   (if s.globalRegistered then [.globalRef] else []))

/-- A fully live AudioManager resource state: a loaded playing element, an
open audio context and an attached controls node. -/
def audioMgrExample : AudioMgrRes :=
  { elementSrc := some ("narration.mp3"), elementPlaying := true,
    contextOpen := some true, controlsPresent := true }

/-- C9 counterexample: on the state left by a first destroy of a live
AudioManager the second destroy re-invokes close() on the already closed
context and yields the unhandled InvalidStateError rejection, so the claim
that the second teardown call produces no error is false on
AudioManager.destroy. -/
theorem teardown_counterexample :
    (audioManagerDestroy (audioManagerDestroy audioMgrExample).fst).snd.snd =
      [DestroyError.invalidStateClose] ∧
    ¬ (∀ a : AudioMgrRes,
        (audioManagerDestroy (audioManagerDestroy a).fst).snd.snd = []) := by
  refine ⟨by decide, fun h => ?_⟩
  have h2 := h audioMgrExample
  rw [show (audioManagerDestroy
      (audioManagerDestroy audioMgrExample).fst).snd.snd =
      [DestroyError.invalidStateClose] from by decide] at h2
  exact absurd h2 (by decide)

/-- C9 amended: running each teardown routine a second time on the state
left by the first run changes no state and releases no resource, so no
resource is freed twice; for QuantumRealm.cleanup and
ElevenLabsDemo.destroy the second call is an error-free no-op, but
AudioManager.destroy keeps its audioContext reference, so whenever a
context exists the second call re-invokes close() on the closed context
and produces an unhandled InvalidStateError rejection. -/
theorem teardown_idempotent_amended (q : QuantumRealmState) (a : AudioMgrRes)
    (d : DemoResState) :
    quantumCleanup (quantumCleanup q).fst = ((quantumCleanup q).fst, []) ∧
    audioManagerDestroy (audioManagerDestroy a).fst =
      ((audioManagerDestroy a).fst, [],
        if a.contextOpen.isSome then [DestroyError.invalidStateClose]
        else []) ∧
    elevenLabsDestroy (elevenLabsDestroy d).fst =
      ((elevenLabsDestroy d).fst, []) := by
  refine ⟨rfl, ?_, ?_⟩
  · rcases a with ⟨src, p, ctx, c⟩
    rcases src with _ | src <;> rcases ctx with _ | ctx <;>
      simp [audioManagerDestroy]
  · rcases d with ⟨url, r, l, g⟩
    rcases url with _ | url <;> simp [elevenLabsDestroy]

/-! ## Speech generation input guard (neural-docs.js
ElevenLabsDemo.generateSpeech)

The guard reads the text input value, trims it with the platform trim, and
refuses to start a synthesis when a generation is already in progress,
when the trimmed text is empty, or when the trimmed text is longer than
500 characters. Strings are modelled over Lean characters, with lengths
counted in UTF-16 code units as the platform length property does. -/

/-- Characters removed by the platform trim: the WhiteSpace and
LineTerminator productions, that is tab, line feed, vertical tab, form
feed, carriage return, space, no-break space, the zero width no-break
space, the line and paragraph separators, and every Space_Separator code
point: ogham space mark 5760, the range 8192 to 8202, narrow no-break
space 8239, medium mathematical space 8287 and ideographic space 12288. -/
def isJsWhitespace (c : Char) : Bool :=
  c = ' ' || c = '\t' || c = '\n' || c = '\r' ||
  c.toNat = 11 || c.toNat = 12 || c.toNat = 160 || c.toNat = 5760 ||
  (decide (8192 ≤ c.toNat) && decide (c.toNat ≤ 8202)) ||
  c.toNat = 8232 || c.toNat = 8233 || c.toNat = 8239 ||
  c.toNat = 8287 || c.toNat = 12288 || c.toNat = 65279

/-- The platform string trim: removes leading and trailing whitespace. -/
def jsTrim (s : String) : String :=
  ⟨((s.data.dropWhile isJsWhitespace).reverse.dropWhile
      isJsWhitespace).reverse⟩

/-- Length in UTF-16 code units, as counted by the platform length
property used in the 500 character comparison. -/
def utf16Length (s : String) : ℕ :=
  s.data.foldl (fun n c => n + (if c.toNat < 65536 then 1 else 2)) 0

structure GenState where
  isGenerating : Bool
  currentAudio : Option ℕ
deriving DecidableEq, Repr

/-- Outcome of one call to generateSpeech: refused because a generation is
in progress, refused for empty text, refused for text over 500 characters,
or synthesis started on the trimmed text. -/
inductive GenOutcome where
  | busy
  | emptyText
  | tooLong
  | started (text : String)
deriving DecidableEq, Repr

def GenOutcome.isStarted : GenOutcome → Bool
  | .started _ => true
  | _ => false

/-- ElevenLabsDemo.generateSpeech up to its first effect: returns when
isGenerating is set, trims the input, returns with a warning toast when the
trimmed text is empty, returns with an error toast when it exceeds 500
characters, and otherwise sets isGenerating and starts the synthesis
pipeline on the trimmed text. -/
def generateSpeech (st : GenState) (input : String) : GenState × GenOutcome :=
  if st.isGenerating then (st, .busy)
  else
    let text := jsTrim input
    if text = "" then (st, .emptyText)
    else if 500 < utf16Length text then (st, .tooLong)
    else ({ st with isGenerating := true }, .started text)

/-- C10 Implicit input guard on speech generation: synthesis starts exactly
when no generation is in progress, the trimmed text is nonempty and its
length is at most 500 characters; whenever the call is refused the state,
including currentAudio and isGenerating, is left unchanged, and currentAudio
is never touched by the guard. -/
theorem generate_speech_guard (st : GenState) (input : String) :
    ((generateSpeech st input).snd.isStarted = true ↔
      st.isGenerating = false ∧ jsTrim input ≠ "" ∧
        utf16Length (jsTrim input) ≤ 500) ∧
    ((generateSpeech st input).snd.isStarted = false →
      (generateSpeech st input).fst = st) ∧
    (generateSpeech st input).fst.currentAudio = st.currentAudio := by
  rcases st with ⟨g, audio⟩
  cases g <;> simp only [generateSpeech] <;>
    [skip; exact ⟨by simp [GenOutcome.isStarted], fun _ => rfl, rfl⟩]
  by_cases he : jsTrim input = ""
  · simp [he, GenOutcome.isStarted]
  · by_cases hl : 500 < utf16Length (jsTrim input)
    · simp [he, hl, GenOutcome.isStarted]
    · simp [he, hl, GenOutcome.isStarted]
      omega

/-- Witness for the speech generation guard: from an idle state, a short
nonempty input starts the synthesis, a busy state refuses it, and an input
consisting of one ideographic space trims to empty and is refused. -/
theorem generate_speech_guard_witness :
    (generateSpeech ⟨false, none⟩ "hello").snd.isStarted = true ∧
    (generateSpeech ⟨true, none⟩ "hello").snd.isStarted = false ∧
    (generateSpeech ⟨false, none⟩ "\u3000").snd.isStarted = false := by
  refine ⟨?_, by decide, by decide⟩
  exact (generate_speech_guard ⟨false, none⟩ "hello").1.mpr
    ⟨rfl, by decide, by decide⟩
